import Mathlib

/-!
Verification development for the Animism ("万物有灵") browser client.

Shallow embedding of the two source files:
  - api.js    : the APIClient class (checkHealth, identifyImage, chat)
  - script.js : the session controller (initAPI, sendMessage,
                generateSpiritResponse, usePhoto, useUploadedPhoto,
                handleFiles, the visibilitychange and beforeunload handlers)

JavaScript strings are modelled as Lean String values; the JS string
operations used by the source (includes, trim, startsWith) are defined
below over the underlying character lists.  Network interaction is
modelled by a FetchOutcome parameter: each embedded async function takes
the outcome of its single fetch-and-decode as an explicit argument.
Math.random draws are modelled by a natural-number argument reduced
modulo the candidate-list length, which is exactly the range of
Math.floor(Math.random() * list.length).
-/

namespace Animism

/-- Character-list prefix test: leadMatch needle hay is true when needle is
an initial segment of hay (the core of JS String.startsWith). -/
def leadMatch : List Char → List Char → Bool
  | [], _ => true
  | _ :: _, [] => false
  | a :: as, b :: bs => a == b && leadMatch as bs

/-- Substring containment over character lists: true when needle occurs
contiguously somewhere in hay (the core of JS String.includes). -/
def hasSub (needle : List Char) : List Char → Bool
  | [] => leadMatch needle []
  | c :: t => leadMatch needle (c :: t) || hasSub needle t

/-- JS s.includes(sub). -/
def jsIncludes (s sub : String) : Bool := hasSub sub.data s.data

/-- JS s.startsWith(p). -/
def jsStartsWith (s p : String) : Bool := leadMatch p.data s.data

/-- The characters JS String.prototype.trim removes (WhiteSpace and
LineTerminator code points). -/
def jsWhitespaceChar (c : Char) : Bool :=
  c = ' ' || c = '\t' || c = '\n' || c = '\r' ||
  c = '\x0b' || c = '\x0c' || c = '\u00A0' ||
  c = '\u2028' || c = '\u2029' || c = '\uFEFF'

/-- JS s.trim(): strip whitespace from both ends. -/
def jsTrim (s : String) : String :=
  ⟨((s.data.dropWhile jsWhitespaceChar).reverse.dropWhile jsWhitespaceChar).reverse⟩

/-- JS falsy-or on an optional string field: models data.error || dflt,
where an absent field and the empty string are both falsy. -/
def jsOr (s : Option String) (dflt : String) : String :=
  match s with
  | none => dflt
  | some t => if t = "" then dflt else t

/-- Uniform pick responses[Math.floor(Math.random() * responses.length)],
with the random draw supplied as a natural number r; the index r % length
ranges over exactly the indices Math.floor can produce. -/
def pickUniform (l : List String) (r : Nat) : String :=
  l.getD (r % l.length) ""

/-- Message origin: the first argument of addMessage in script.js. -/
inductive Origin where
  | user
  | spirit
deriving DecidableEq, Repr

/-- A chat message as built by addMessage(type, text, image) in
script.js: origin, text, and an optional image data-URI. -/
structure Msg where
  origin : Origin
  text : String
  image : Option String := none
deriving DecidableEq, Repr

/-! ### script.js: generateSpiritResponse (lines 312-337)

The source iterates Object.entries of the responses literal in insertion
order — '你好', '故事', '名字', then 'default' (skipped by the
key !== 'default' guard) — returning a uniform pick from the first
keyword set whose key the user message includes, else a uniform pick
from the default set. -/

/-- Candidate replies for the '你好' keyword. -/
def greetingSet : List String :=
  ["你好呀！很高兴见到你。", "嘿，你终于来了！", "你好，我是这里的地灵。"]

/-- Candidate replies for the '故事' keyword. -/
def storySet : List String :=
  ["我有好多故事要讲呢，你想听哪个？", "故事啊...让我想想从哪说起好呢。",
   "我的故事都在茶里呢，要不要来一杯？"]

/-- Candidate replies for the '名字' keyword. -/
def nameSet : List String :=
  ["我是茶壶地灵，你可以叫我小茶。", "名字？我有很多名字，你叫我什么都可以。"]

/-- The default candidate replies. -/
def defaultSet : List String :=
  ["有趣的问题...让我想想。", "嗯嗯，你说得对。", "这个问题很有深意呢。",
   "我能感觉到你的真诚。", "万物皆有灵，你感受到了吗？", "继续说，我在听呢。",
   "哈哈，你真有意思！"]

/-- script.js generateSpiritResponse: first-match keyword lookup in the
fixed insertion order of the responses object, with the random draw made
explicit. -/
def generateSpiritResponse (userMessage : String) (r : Nat) : String :=
  if jsIncludes userMessage "你好" then pickUniform greetingSet r
  else if jsIncludes userMessage "故事" then pickUniform storySet r
  else if jsIncludes userMessage "名字" then pickUniform nameSet r
  else pickUniform defaultSet r

/-! ### script.js: sendMessage (lines 291-309)

The source trims the input box value, returns when it is empty,
otherwise appends the user message, clears the input box, and schedules
a timer of 500 + Math.random()*1000 milliseconds whose callback appends
the spirit message generateSpiritResponse(message).  Note that the
source body never reads the apiClient global: the gatewayAvailable
argument below is accepted only so that independence from gateway
availability can be stated, and — matching the source — the body never
consults it. -/

/-- The observable result of one sendMessage call: the message appended
synchronously, the input-box value afterwards, and the timer scheduled
(delay in milliseconds paired with the message its callback appends),
none when no timer is scheduled. -/
structure SendResult where
  syncAppended : List Msg
  inputAfter : String
  timer : Option (Nat × Msg)
deriving DecidableEq, Repr

/-- script.js sendMessage, over the input-box value, gateway
availability, the responder random draw r, and the delay draw rd. -/
def sendMessage (gatewayAvailable : Bool) (input : String) (r rd : Nat) : SendResult :=
  let message := jsTrim input
  if message = "" then
    ⟨[], input, none⟩
  else
    ⟨[⟨Origin.user, message, none⟩], "",
     some (500 + rd % 1000, ⟨Origin.spirit, generateSpiritResponse message r, none⟩)⟩

/-! ### api.js: the APIClient network operations

Each operation performs exactly one fetch followed by one response.json()
decode inside a try block.  A FetchOutcome records how that pair went:
the fetch itself rejected (networkError), the fetch produced a response
with ok-flag httpOk but response.json() rejected (bodyDecodeError), or a
response with ok-flag httpOk decoded to a body (response).  JS exceptions
are modelled by Except String, carrying the error message. -/

/-- Outcome of one fetch-and-decode pair, over the decoded body type. -/
inductive FetchOutcome (β : Type) where
  | networkError (msg : String)
  | bodyDecodeError (httpOk : Bool) (msg : String)
  | response (httpOk : Bool) (body : β)
deriving DecidableEq, Repr

/-- Decoded body of GET /health as read by the client, and also the shape
of the error object checkHealth fabricates on failure. -/
structure HealthBody where
  status : String
  error : Option String := none
  model_loaded : Bool := false
deriving DecidableEq, Repr

/-- api.js APIClient.checkHealth: try fetch-and-decode and return the
decoded body; any caught error is mapped to a status-error object.  The
function is total — it never throws. -/
def checkHealth (o : FetchOutcome HealthBody) : HealthBody :=
  match o with
  | .networkError m => { status := "error", error := some m }
  | .bodyDecodeError _ m => { status := "error", error := some m }
  | .response _ body => body

/-- Decoded body of POST /api/identify as read by the client. -/
structure IdentifyBody where
  success : Bool
  description : String := ""
  objects : List String := []
  error : Option String := none
deriving DecidableEq, Repr

/-- api.js APIClient.identifyImage: decode the body, then throw
data.error || '识别失败' when response.ok is false, else return the
body; a fetch rejection or a response.json() rejection propagates its
own message (the catch block logs and rethrows). -/
def identifyImage (o : FetchOutcome IdentifyBody) : Except String IdentifyBody :=
  match o with
  | .networkError m => .error m
  | .bodyDecodeError _ m => .error m
  | .response httpOk body =>
      if httpOk then .ok body else .error (jsOr body.error "识别失败")

/-- Decoded body of POST /api/chat as read by the client. -/
structure ChatBody where
  success : Bool := true
  reply : String := ""
  error : Option String := none
deriving DecidableEq, Repr

/-- The JSON payload APIClient.chat posts: message and context always,
the image field only when an image was provided. -/
structure ChatPayload where
  message : String
  context : String
  image : Option String
deriving DecidableEq, Repr

/-- api.js APIClient.chat payload construction: payload.image is set
exactly when the imageBase64 argument is non-null. -/
def chatPayload (message : String) (imageBase64 : Option String)
    (context : String) : ChatPayload :=
  { message := message, context := context, image := imageBase64 }

/-- api.js APIClient.chat: same try/decode/ok-check shape as
identifyImage, with generic failure message '聊天失败'. -/
def chat (o : FetchOutcome ChatBody) : Except String ChatBody :=
  match o with
  | .networkError m => .error m
  | .bodyDecodeError _ m => .error m
  | .response httpOk body =>
      if httpOk then .ok body else .error (jsOr body.error "聊天失败")

/-! ### script.js: initAPI (lines 36-60)

initAPI constructs the client, awaits exactly one checkHealth probe, and
keeps the apiClient global non-null exactly when the probe returned
status 'ok'; every other outcome (and the dead catch arm — checkHealth
never throws and the constructor cannot) clears apiClient to null.  There
is no retry or re-probe anywhere in the source: the boolean computed here
is fixed for the session, and the photo handlers below take it as their
gateway argument. -/

/-- script.js initAPI: whether the apiClient global is non-null after
initialization, as a function of the single health-probe outcome. -/
def initAPI (o : FetchOutcome HealthBody) : Bool :=
  (checkHealth o).status = "ok"

/-! ### script.js: usePhoto (lines 233-276) and useUploadedPhoto (lines 498-539)

Both handlers append a user message carrying the image, then — when the
apiClient global is non-null — append an interim spirit message, await
identifyImage, and append one outcome spirit message (success text,
not-identified text on success:false, or the fixed error text when the
await threw); when apiClient is null they instead schedule a 1000 ms
timer appending one pick from a local candidate list.  Each embedded
handler returns the full list of messages the call eventually appends,
in append order. -/

/-- Local candidate replies of usePhoto (apiClient null branch). -/
def photoLocalSet : List String :=
  ["哈哈，拍得不错！这张照片里藏着我的秘密呢。", "哎呀，被你拍到了！我正在这里休息呢。",
   "这张照片很有灵性，你能感觉到我的存在吗？", "有趣的角度！让我给你讲讲这个地方的故事..."]

/-- Local candidate replies of useUploadedPhoto (apiClient null branch). -/
def uploadLocalSet : List String :=
  ["哦！这张照片很有灵性呢！", "哇，我感受到了这张照片里的故事。",
   "有意思，这张照片里好像藏着什么秘密...", "好照片！万物皆有灵，你拍到了它的灵魂。",
   "这张照片让我想起了很多往事..."]

/-- The success spirit text both photo handlers build from an identify
result: description plus the joined object labels. -/
def identifySuccessText (body : IdentifyBody) : String :=
  "我识别出来了！这是：" ++ body.description ++ "\n\n其中的物体有：" ++
    String.intercalate "、" body.objects

/-- The spirit messages the try/catch around the identify call appends:
one message, chosen by whether the await threw, and otherwise by
result.success. -/
def identifyBranchMsg (res : Except String IdentifyBody) : Msg :=
  match res with
  | .ok result =>
      if result.success then ⟨Origin.spirit, identifySuccessText result, none⟩
      else ⟨Origin.spirit, "抱歉，我没能识别出这是什么。", none⟩
  | .error _ => ⟨Origin.spirit, "识别时出错了，但我能感受到这张照片的灵性。", none⟩

/-- script.js usePhoto: all messages the call appends, in order, as a
function of gateway availability, the identify fetch outcome, the local
random draw r, and the captured image data. -/
def usePhoto (gatewayAvailable : Bool) (o : FetchOutcome IdentifyBody)
    (r : Nat) (imageData : String) : List Msg :=
  ⟨Origin.user, "我拍了一张照片", some imageData⟩ ::
  (if gatewayAvailable then
    [⟨Origin.spirit, "让我看看这是什么...", none⟩, identifyBranchMsg (identifyImage o)]
  else
    [⟨Origin.spirit, pickUniform photoLocalSet r, none⟩])

/-- script.js useUploadedPhoto: same shape as usePhoto with the upload
wording and its five-element local candidate list. -/
def useUploadedPhoto (gatewayAvailable : Bool) (o : FetchOutcome IdentifyBody)
    (r : Nat) (imageData : String) : List Msg :=
  ⟨Origin.user, "我上传了一张图片", some imageData⟩ ::
  (if gatewayAvailable then
    [⟨Origin.spirit, "让我看看你上传了什么...", none⟩, identifyBranchMsg (identifyImage o)]
  else
    [⟨Origin.spirit, pickUniform uploadLocalSet r, none⟩])

/-! ### script.js: handleFiles (lines 455-495)

handleFiles filters the incoming file list to entries whose MIME type
starts with image/.  With no survivor it alerts '请选择图片文件！' and
returns — no FileReader is constructed and nothing else changes.
Otherwise every accepted file gets a FileReader whose onload shows its
data-URI in the preview modal after an index*100 ms stagger (so when all
callbacks have fired the modal is active showing the last accepted
file), and the index-0 callback replaces the use-photo button with a
clone of itself — dropping every previously installed click listener —
then installs two click listeners, one on the clone directly and one
through getElementById (which resolves to the same clone), both invoking
useUploadedPhoto with the FIRST accepted file's data-URI. -/

/-- A dropped or selected file: its MIME type and the data-URI
FileReader.readAsDataURL would produce for it. -/
structure JsFile where
  mimeType : String
  dataURI : String
deriving DecidableEq, Repr

/-- The state handleFiles can touch: the photo-preview overlay, the
use-photo button's click listeners (each recorded by the image data it
passes to useUploadedPhoto), and the chat transcript. -/
structure FilesState where
  modalActive : Bool
  capturedSrc : String
  usePhotoListeners : List String
  transcript : List Msg
deriving DecidableEq, Repr

/-- Observable effect of one handleFiles call: whether the alert fired,
how many FileReader decodes were started, and the state after every
scheduled callback has run. -/
structure FilesResult where
  alerted : Bool
  readersStarted : Nat
  after : FilesState
deriving DecidableEq, Repr

/-- script.js handleFiles over the incoming file list and current state. -/
def handleFiles (files : List JsFile) (st : FilesState) : FilesResult :=
  let imageFiles := files.filter (fun f => jsStartsWith f.mimeType "image/")
  match imageFiles with
  | [] => ⟨true, 0, st⟩
  | f0 :: rest =>
      ⟨false, (f0 :: rest).length,
       { st with
          modalActive := true
          capturedSrc := ((f0 :: rest).getLastD f0).dataURI
          usePhotoListeners := [f0.dataURI, f0.dataURI] }⟩

/-- Dispatch of one click event on the use-photo button: every installed
listener fires in installation order, each invoking useUploadedPhoto
with its bound image data; the result lists the messages each
invocation appends. -/
def clickUsePhoto (listeners : List String) (gatewayAvailable : Bool)
    (o : FetchOutcome IdentifyBody) (r : Nat) : List (List Msg) :=
  listeners.map (fun d => useUploadedPhoto gatewayAvailable o r d)

/-! ### script.js: visibilitychange (lines 375-395) and beforeunload (368-372)

The visibilitychange handler, when a stream exists, walks its tracks and
sets enabled to false (document hidden) or true (document visible) on
those of kind 'video', touching nothing else; the beforeunload handler
calls stop() on every track of the stream. -/

/-- A media stream track: its kind, its enabled flag, and whether
stop() has been called on it. -/
structure Track where
  kind : String
  enabled : Bool
  stopped : Bool
deriving DecidableEq, Repr

/-- The forEach body of the visibilitychange handler: set the enabled
flag to b on every track of kind 'video', leave other tracks untouched. -/
def setVideoEnabled (b : Bool) (ts : List Track) : List Track :=
  ts.map (fun t => if t.kind = "video" then { t with enabled := b } else t)

/-- script.js visibilitychange handler over document.hidden and the
currentStream global (none when no stream was acquired). -/
def visibilitychangeHandler (docHidden : Bool) (stream : Option (List Track)) :
    Option (List Track) :=
  match stream with
  | none => none
  | some ts =>
      some (if docHidden then setVideoEnabled false ts else setVideoEnabled true ts)

/-- script.js beforeunload handler: stop every track of the stream. -/
def beforeunloadHandler (stream : Option (List Track)) : Option (List Track) :=
  match stream with
  | none => none
  | some ts => some (ts.map (fun t => { t with stopped := true }))

/-- True of messages rendered on the user side. -/
def isUserMsg (m : Msg) : Bool := m.origin == Origin.user

/-- True of messages rendered on the spirit side. -/
def isSpiritMsg (m : Msg) : Bool := m.origin == Origin.spirit

/-! ## Helper lemmas -/

/-- A uniform pick from a nonempty candidate list is a member of it. -/
theorem pickUniform_mem (l : List String) (r : Nat) (h : l ≠ []) :
    pickUniform l r ∈ l := by
  have hl : 0 < l.length := List.length_pos.mpr h
  have hlt : r % l.length < l.length := Nat.mod_lt _ hl
  unfold pickUniform
  rw [List.getD_eq_getElem l "" hlt]
  exact List.getElem_mem hlt

/-- The message appended after the identify await is always a spirit
message, whatever the outcome. -/
theorem identifyBranchMsg_origin (res : Except String IdentifyBody) :
    (identifyBranchMsg res).origin = Origin.spirit := by
  cases res with
  | ok result =>
      by_cases h : result.success <;> simp [identifyBranchMsg, h]
  | error m => rfl

/-! ## Claim theorems -/

/-- C4: generateSpiritResponse replies from the candidate set of the
first matching keyword, checked in the fixed order 你好, 故事, 名字 by
substring containment, and from the default set when none matches; in
particular an input containing 你好 always draws from the greeting set,
and an input containing 故事 (with 你好 absent, as the first-match order
dictates) draws from the story set. -/
theorem generateSpiritResponse_first_match (msg : String) (r : Nat) :
    (jsIncludes msg "你好" = true →
      generateSpiritResponse msg r ∈ greetingSet) ∧
    (jsIncludes msg "你好" = false → jsIncludes msg "故事" = true →
      generateSpiritResponse msg r ∈ storySet) ∧
    (jsIncludes msg "你好" = false → jsIncludes msg "故事" = false →
      jsIncludes msg "名字" = true → generateSpiritResponse msg r ∈ nameSet) ∧
    (jsIncludes msg "你好" = false → jsIncludes msg "故事" = false →
      jsIncludes msg "名字" = false → generateSpiritResponse msg r ∈ defaultSet) := by
  refine ⟨fun h1 => ?_, fun h1 h2 => ?_, fun h1 h2 h3 => ?_, fun h1 h2 h3 => ?_⟩
  · simp only [generateSpiritResponse, h1, if_true]
    exact pickUniform_mem _ _ (by decide)
  · simp only [generateSpiritResponse, h1, h2, if_true, Bool.false_eq_true, if_false]
    exact pickUniform_mem _ _ (by decide)
  · simp only [generateSpiritResponse, h1, h2, h3, if_true, Bool.false_eq_true, if_false]
    exact pickUniform_mem _ _ (by decide)
  · simp only [generateSpiritResponse, h1, h2, h3, Bool.false_eq_true, if_false]
    exact pickUniform_mem _ _ (by decide)

/-- Witness for C4: the message 给我讲个故事 contains 故事 and not 你好,
so the reply is drawn from the story candidate set. -/
theorem generateSpiritResponse_first_match_witness :
    generateSpiritResponse "给我讲个故事" 1 ∈ storySet :=
  (generateSpiritResponse_first_match "给我讲个故事" 1).2.1 (by decide) (by decide)

/-- C1 counterexample: with the gateway available, sendMessage still
produces its spirit reply from the local scripted responder — here a
greeting-set canned reply for input 你好 — and its result coincides with
the gateway-unavailable result; the gateway chat operation plays no
part. -/
theorem sendMessage_gateway_ignored_cex :
    sendMessage true "你好" 0 0 =
      ⟨[⟨Origin.user, "你好", none⟩], "",
       some (500, ⟨Origin.spirit, "你好呀！很高兴见到你。", none⟩)⟩ ∧
    "你好呀！很高兴见到你。" ∈ greetingSet ∧
    sendMessage true "你好" 0 0 = sendMessage false "你好" 0 0 := by
  refine ⟨by decide, by decide, by decide⟩

/-- C1 (amended): sendMessage is independent of gateway availability and
always takes the local scripted path — either the trimmed text is empty
and nothing happens, or the user message is appended, the input box is
cleared, and the scheduled timer appends generateSpiritResponse of the
trimmed text after a delay in the window from 500 up to 1500 ms. -/
theorem sendMessage_always_local (g : Bool) (input : String) (r rd : Nat) :
    sendMessage g input r rd = sendMessage true input r rd ∧
    (sendMessage g input r rd = ⟨[], input, none⟩ ∨
      (sendMessage g input r rd =
        ⟨[⟨Origin.user, jsTrim input, none⟩], "",
         some (500 + rd % 1000,
               ⟨Origin.spirit, generateSpiritResponse (jsTrim input) r, none⟩)⟩ ∧
       500 ≤ 500 + rd % 1000 ∧ 500 + rd % 1000 < 1500)) := by
  refine ⟨rfl, ?_⟩
  by_cases h : jsTrim input = ""
  · left
    simp [sendMessage, h]
  · right
    refine ⟨by simp [sendMessage, h], Nat.le_add_right _ _, ?_⟩
    have : rd % 1000 < 1000 := Nat.mod_lt _ (by decide)
    omega

/-- C7: sendMessage on input whose trimmed form is empty is a no-op —
no message is appended, the input box keeps its value, and no timer is
scheduled. -/
theorem sendMessage_blank_noop (g : Bool) (input : String) (r rd : Nat)
    (h : jsTrim input = "") :
    sendMessage g input r rd = ⟨[], input, none⟩ := by
  simp [sendMessage, h]

/-- Witness for C7 at a whitespace-only input. -/
theorem sendMessage_blank_noop_witness :
    sendMessage true "  \t\n " 3 7 = ⟨[], "  \t\n ", none⟩ :=
  sendMessage_blank_noop true "  \t\n " 3 7 (by decide)

/-- C2 counterexample: with the gateway available and a successful
identify, usePhoto appends two spirit messages (the interim 让我看看
acknowledgment plus the outcome message), not exactly one as claimed. -/
theorem usePhoto_two_spirit_messages_cex :
    ((usePhoto true
        (FetchOutcome.response true
          { success := true, description := "一把茶壶", objects := ["茶壶"] })
        0 "data:image/png;base64,AAA").countP isSpiritMsg = 2) ∧
    ¬ ((usePhoto true
        (FetchOutcome.response true
          { success := true, description := "一把茶壶", objects := ["茶壶"] })
        0 "data:image/png;base64,AAA").countP isSpiritMsg = 1) := by
  refine ⟨by decide, by decide⟩

/-- C2 (amended): every usePhoto or useUploadedPhoto call appends
exactly one user message — first, carrying the image — followed only by
spirit messages: exactly one when the gateway is unavailable, and
exactly two (interim acknowledgment then outcome message) when it is
available, whatever the identify outcome. -/
theorem photo_flow_message_counts (g : Bool) (o : FetchOutcome IdentifyBody)
    (r : Nat) (img : String) :
    ((usePhoto g o r img).countP isUserMsg = 1 ∧
     (usePhoto g o r img).countP isSpiritMsg = (if g then 2 else 1) ∧
     (usePhoto g o r img).head? = some ⟨Origin.user, "我拍了一张照片", some img⟩ ∧
     (usePhoto g o r img).tail.all isSpiritMsg = true) ∧
    ((useUploadedPhoto g o r img).countP isUserMsg = 1 ∧
     (useUploadedPhoto g o r img).countP isSpiritMsg = (if g then 2 else 1) ∧
     (useUploadedPhoto g o r img).head? =
       some ⟨Origin.user, "我上传了一张图片", some img⟩ ∧
     (useUploadedPhoto g o r img).tail.all isSpiritMsg = true) := by
  have ho := identifyBranchMsg_origin (identifyImage o)
  cases g <;>
    simp [usePhoto, useUploadedPhoto, isUserMsg, isSpiritMsg,
      List.countP_cons, ho]

/-- C3: a failed health probe (any outcome whose checkHealth status is
not ok — network error, decode failure, or a non-ok reported status)
leaves the apiClient global null, and with it every subsequent photo
identify flow takes the local fallback branch and sendMessage behaves
exactly as in the gateway-absent session; the probe outcome is consumed
once at initialization and nothing re-probes. -/
theorem initAPI_failure_forces_fallback (o : FetchOutcome HealthBody)
    (h : ¬ (checkHealth o).status = "ok") :
    initAPI o = false ∧
    (∀ (oi : FetchOutcome IdentifyBody) (r : Nat) (img : String),
      usePhoto (initAPI o) oi r img =
        [⟨Origin.user, "我拍了一张照片", some img⟩,
         ⟨Origin.spirit, pickUniform photoLocalSet r, none⟩]) ∧
    (∀ (oi : FetchOutcome IdentifyBody) (r : Nat) (img : String),
      useUploadedPhoto (initAPI o) oi r img =
        [⟨Origin.user, "我上传了一张图片", some img⟩,
         ⟨Origin.spirit, pickUniform uploadLocalSet r, none⟩]) ∧
    (∀ (input : String) (r rd : Nat),
      sendMessage (initAPI o) input r rd = sendMessage false input r rd) := by
  have hg : initAPI o = false := by
    simp [initAPI, h]
  refine ⟨hg, ?_, ?_, ?_⟩
  · intro oi r img
    simp [hg, usePhoto]
  · intro oi r img
    simp [hg, useUploadedPhoto]
  · intro input r rd
    rfl

/-- Witness for C3 at a network-error probe outcome. -/
theorem initAPI_failure_forces_fallback_witness :
    initAPI (FetchOutcome.networkError "Failed to fetch") = false ∧
    usePhoto (initAPI (FetchOutcome.networkError "Failed to fetch"))
        (FetchOutcome.response true { success := true }) 0 "img" =
      [⟨Origin.user, "我拍了一张照片", some "img"⟩,
       ⟨Origin.spirit, "哈哈，拍得不错！这张照片里藏着我的秘密呢。", none⟩] := by
  have h := initAPI_failure_forces_fallback
    (FetchOutcome.networkError "Failed to fetch") (by decide)
  exact ⟨h.1, (h.2.1 (FetchOutcome.response true { success := true }) 0 "img").trans
    (by decide)⟩

/-- C5: checkHealth is total — every fetch or decode failure is caught
and mapped to a body whose status field is the error indicator, carrying
the failure message, while a successful fetch-and-decode returns the
decoded body itself. -/
theorem checkHealth_never_throws (o : FetchOutcome HealthBody) :
    (∀ m, o = FetchOutcome.networkError m →
      checkHealth o = { status := "error", error := some m }) ∧
    (∀ k m, o = FetchOutcome.bodyDecodeError k m →
      checkHealth o = { status := "error", error := some m }) ∧
    (∀ k b, o = FetchOutcome.response k b → checkHealth o = b) := by
  refine ⟨fun m hm => ?_, fun k m hm => ?_, fun k b hb => ?_⟩
  · subst hm; rfl
  · subst hm; rfl
  · subst hb; rfl

/-- Witness for C5 at a concrete network failure. -/
theorem checkHealth_never_throws_witness :
    checkHealth (FetchOutcome.networkError "Failed to fetch") =
      { status := "error", error := some "Failed to fetch" } :=
  (checkHealth_never_throws (FetchOutcome.networkError "Failed to fetch")).1
    "Failed to fetch" rfl

/-- C6 counterexample: a non-ok HTTP response whose body fails to
decode makes identifyImage throw the decode-error message — response
dot json() is awaited before the ok check — not the generic 识别失败
the claim requires when no server error field is present. -/
theorem identify_decode_error_cex :
    identifyImage
        (FetchOutcome.bodyDecodeError false "Unexpected end of JSON input") =
      Except.error "Unexpected end of JSON input" ∧
    ¬ identifyImage
        (FetchOutcome.bodyDecodeError false "Unexpected end of JSON input") =
      Except.error "识别失败" := by
  refine ⟨rfl, fun hcontra => ?_⟩
  injection hcontra with hmsg
  exact absurd hmsg (by decide)

/-- C6 (amended): for identifyImage and chat, a non-success HTTP status
with a decodable body throws the server error field when present and
non-empty (JS falsiness) and the generic message 识别失败 / 聊天失败
otherwise; a success-status response with a decodable body returns the
body; and a fetch rejection or body-decode failure propagates its own
message whatever the HTTP status. -/
theorem api_error_mapping (oi : FetchOutcome IdentifyBody)
    (oc : FetchOutcome ChatBody) :
    ((∀ b, oi = FetchOutcome.response true b → identifyImage oi = Except.ok b) ∧
     (∀ b, oi = FetchOutcome.response false b →
       identifyImage oi = Except.error (jsOr b.error "识别失败")) ∧
     (∀ m, oi = FetchOutcome.networkError m → identifyImage oi = Except.error m) ∧
     (∀ k m, oi = FetchOutcome.bodyDecodeError k m →
       identifyImage oi = Except.error m)) ∧
    ((∀ b, oc = FetchOutcome.response true b → chat oc = Except.ok b) ∧
     (∀ b, oc = FetchOutcome.response false b →
       chat oc = Except.error (jsOr b.error "聊天失败")) ∧
     (∀ m, oc = FetchOutcome.networkError m → chat oc = Except.error m) ∧
     (∀ k m, oc = FetchOutcome.bodyDecodeError k m →
       chat oc = Except.error m)) := by
  refine ⟨⟨fun b hb => ?_, fun b hb => ?_, fun m hm => ?_, fun k m hm => ?_⟩,
          ⟨fun b hb => ?_, fun b hb => ?_, fun m hm => ?_, fun k m hm => ?_⟩⟩ <;>
    (first | subst hb | subst hm) <;> rfl

/-- Witness for C6 (amended): a 500 response with a decoded body whose
error field is set makes identifyImage throw that server message. -/
theorem api_error_mapping_witness :
    identifyImage
        (FetchOutcome.response false
          { success := false, error := some "模型未加载" }) =
      Except.error "模型未加载" := by
  have h := (api_error_mapping
      (FetchOutcome.response false { success := false, error := some "模型未加载" })
      (FetchOutcome.networkError "x")).1.2.1
    { success := false, error := some "模型未加载" } rfl
  exact h.trans (by simp [jsOr])

/-- C8: when the incoming file list has no image-typed entry left after
filtering, handleFiles shows the error alert and does nothing else — no
FileReader decode is started, and the overlay, use-photo listeners and
transcript are all unchanged. -/
theorem handleFiles_no_image_noop (files : List JsFile) (st : FilesState)
    (h : files.filter (fun f => jsStartsWith f.mimeType "image/") = []) :
    handleFiles files st = ⟨true, 0, st⟩ := by
  simp [handleFiles, h]

/-- Witness for C8 at a one-element non-image file list. -/
theorem handleFiles_no_image_noop_witness :
    handleFiles [⟨"text/plain", "data:text/plain;base64,AAAA"⟩]
        ⟨false, "", [], []⟩ =
      ⟨true, 0, ⟨false, "", [], []⟩⟩ :=
  handleFiles_no_image_noop _ _ (by decide)

/-- Toggling sets the enabled flag of every video track to b. -/
theorem setVideoEnabled_video (b : Bool) (ts : List Track) :
    (setVideoEnabled b ts).all
      (fun t => !(t.kind == "video") || t.enabled == b) = true := by
  induction ts with
  | nil => rfl
  | cons t ts ih =>
      simp only [setVideoEnabled, List.map_cons, List.all_cons,
        Bool.and_eq_true] at *
      refine ⟨?_, ih⟩
      by_cases h : t.kind = "video" <;> simp [h]

/-- Toggling preserves every track's kind and stopped flag. -/
theorem setVideoEnabled_kind_stopped (b : Bool) (ts : List Track) :
    (setVideoEnabled b ts).map (fun t => (t.kind, t.stopped)) =
      ts.map (fun t => (t.kind, t.stopped)) := by
  induction ts with
  | nil => rfl
  | cons t ts ih =>
      simp only [setVideoEnabled, List.map_cons] at *
      rw [ih]
      by_cases h : t.kind = "video" <;> simp [h]

/-- Toggling leaves non-video tracks entirely untouched. -/
theorem setVideoEnabled_nonvideo (b : Bool) (ts : List Track) :
    (setVideoEnabled b ts).filter (fun t => !(t.kind == "video")) =
      ts.filter (fun t => !(t.kind == "video")) := by
  induction ts with
  | nil => rfl
  | cons t ts ih =>
      simp only [setVideoEnabled, List.map_cons, List.filter_cons] at *
      by_cases h : t.kind = "video" <;> simp [h, ih]

/-- Toggling is idempotent. -/
theorem setVideoEnabled_idem (b : Bool) (ts : List Track) :
    setVideoEnabled b (setVideoEnabled b ts) = setVideoEnabled b ts := by
  induction ts with
  | nil => rfl
  | cons t ts ih =>
      simp only [setVideoEnabled, List.map_cons] at *
      rw [ih]
      by_cases h : t.kind = "video" <;> simp [h]

/-- Toggling preserves the stopped flags, listwise. -/
theorem setVideoEnabled_stopped (b : Bool) (ts : List Track) :
    (setVideoEnabled b ts).map Track.stopped = ts.map Track.stopped := by
  induction ts with
  | nil => rfl
  | cons t ts ih =>
      simp only [setVideoEnabled, List.map_cons] at *
      rw [ih]
      by_cases h : t.kind = "video" <;> simp [h]

/-- The teardown handler stops every track of the stream. -/
theorem beforeunload_stops_all (ts : List Track) :
    ((beforeunloadHandler (some ts)).getD [] |>.all (fun t => t.stopped)) = true := by
  simp only [beforeunloadHandler, Option.getD_some]
  induction ts with
  | nil => rfl
  | cons t ts ih => simp_all [List.all_cons]

/-- C9: the visibilitychange handler only toggles the enabled flag of
video tracks — hidden sets every video track's enabled flag to false,
visible sets it back to true, kind and stopped flags (and non-video
tracks entirely) are untouched, both toggles are idempotent, and no
track is ever stopped by it; tracks are stopped exactly by the
beforeunload teardown handler, which stops every track. -/
theorem visibility_toggles_never_stop (hidden : Bool) (b : Bool)
    (s : Option (List Track)) (ts : List Track) :
    ((setVideoEnabled false ts).all
      (fun t => !(t.kind == "video") || t.enabled == false) = true) ∧
    ((setVideoEnabled true ts).all
      (fun t => !(t.kind == "video") || t.enabled == true) = true) ∧
    ((setVideoEnabled b ts).map (fun t => (t.kind, t.stopped)) =
      ts.map (fun t => (t.kind, t.stopped))) ∧
    ((setVideoEnabled b ts).filter (fun t => !(t.kind == "video")) =
      ts.filter (fun t => !(t.kind == "video"))) ∧
    (setVideoEnabled b (setVideoEnabled b ts) = setVideoEnabled b ts) ∧
    (Option.map (List.map Track.stopped) (visibilitychangeHandler hidden s) =
      Option.map (List.map Track.stopped) s) ∧
    ((beforeunloadHandler (some ts)).getD [] |>.all (fun t => t.stopped)) = true := by
  refine ⟨setVideoEnabled_video false ts, setVideoEnabled_video true ts,
          setVideoEnabled_kind_stopped b ts, setVideoEnabled_nonvideo b ts,
          setVideoEnabled_idem b ts, ?_, ?_⟩
  · cases s with
    | none => rfl
    | some ts' =>
        cases hidden <;>
          simp [visibilitychangeHandler, setVideoEnabled_stopped]
  · exact beforeunload_stops_all ts

/-- C10: after handleFiles accepts at least one image, the use-photo
button carries exactly two click listeners, both bound to the first
accepted file's data-URI (one added on the clone that replaced the
button, one added by re-querying the same clone by id), so one click
dispatch invokes useUploadedPhoto twice with that first file's data. -/
theorem usePhotoBtn_double_listener (files : List JsFile) (st : FilesState)
    (f0 : JsFile) (rest : List JsFile)
    (h : files.filter (fun f => jsStartsWith f.mimeType "image/") = f0 :: rest) :
    (handleFiles files st).after.usePhotoListeners = [f0.dataURI, f0.dataURI] ∧
    (handleFiles files st).after.usePhotoListeners.length = 2 ∧
    ∀ (g : Bool) (o : FetchOutcome IdentifyBody) (r : Nat),
      clickUsePhoto (handleFiles files st).after.usePhotoListeners g o r =
        [useUploadedPhoto g o r f0.dataURI, useUploadedPhoto g o r f0.dataURI] := by
  have hres : handleFiles files st =
      ⟨false, (f0 :: rest).length,
       { st with
          modalActive := true
          capturedSrc := ((f0 :: rest).getLastD f0).dataURI
          usePhotoListeners := [f0.dataURI, f0.dataURI] }⟩ := by
    simp [handleFiles, h]
  refine ⟨by rw [hres], by rw [hres]; rfl, fun g o r => by rw [hres]; rfl⟩

/-- Witness for C10: two dropped images; both listeners carry the first
file's data-URI even though the second file's preview is shown last. -/
theorem usePhotoBtn_double_listener_witness :
    (handleFiles
        [⟨"image/png", "data:image/png;base64,AAAA"⟩,
         ⟨"image/jpeg", "data:image/jpeg;base64,BBBB"⟩]
        ⟨false, "", [], []⟩).after.usePhotoListeners =
      ["data:image/png;base64,AAAA", "data:image/png;base64,AAAA"] :=
  (usePhotoBtn_double_listener
    [⟨"image/png", "data:image/png;base64,AAAA"⟩,
     ⟨"image/jpeg", "data:image/jpeg;base64,BBBB"⟩]
    ⟨false, "", [], []⟩
    ⟨"image/png", "data:image/png;base64,AAAA"⟩
    [⟨"image/jpeg", "data:image/jpeg;base64,BBBB"⟩]
    (by decide)).1

end Animism
